import Mathlib

/-
Verification of the gossip backend relay (src/main.py) against its
specification.  The four FastAPI handlers (get_profile, update_profile,
create_tweet, get_tweets) are embedded shallowly: the datastore is a list
of profile rows, the two external clients (datastore client, social API
client) are environments supplying the results of each external call, and
each handler is a pure function returning the HTTP response, the new
datastore state where it writes, and the trace of social-API calls it
performed.
-/

namespace Gossip

/-- A profile record, as stored in the external datastore.  Every column the
handlers touch is optional (a column can be absent or null in the record);
`id` is the unique key. -/
structure Row where
  id : String
  username : Option String := none
  bio : Option String := none
  website : Option String := none
  location : Option String := none
  twitter_username : Option String := none
  twitter_post_count : Option Int := none
  last_tweet_at : Option String := none
  last_tweet_id : Option String := none
deriving Repr, DecidableEq

/-- A tweet as returned by the social API (tweepy `get_users_tweets`):
identifier, text, creation timestamp and the two engagement metrics the
handler reads from `public_metrics`. -/
structure Tweet where
  id : String
  text : String
  created_at : String
  like_count : Int
  retweet_count : Int
deriving Repr, DecidableEq

/-- One entry of the tweets list built by `get_tweets`. -/
structure TweetOut where
  id : String
  text : String
  created_at : String
  likes : Int
  retweets : Int
  url : String
deriving Repr, DecidableEq

/-- The JSON body returned by `get_tweets`: a tweets list and an optional
error string field. -/
structure TweetsBody where
  tweets : List TweetOut
  error : Option String := none
deriving Repr, DecidableEq

/-- The JSON body returned by a successful `create_tweet`. -/
structure TweetResult where
  success : Bool
  new_count : Int
  tweet_id : String
  tweet_url : String
deriving Repr, DecidableEq

/-- The JSON body accepted by `update_profile` (pydantic `ProfileUpdate`):
four optional fields, `None` meaning absent. -/
structure ProfileUpdate where
  username : Option String := none
  bio : Option String := none
  website : Option String := none
  location : Option String := none
deriving Repr, DecidableEq

/-- An exception live inside a handler body: either a `fastapi.HTTPException`
raised by the handler itself (status code and detail) or an exception coming
out of a client library call (its message). -/
inductive Exc where
  | http : Nat → String → Exc
  | lib : String → Exc
deriving Repr, DecidableEq

/-- Python `str(e)`: starlette renders an `HTTPException` as
`"<status_code>: <detail>"`; a library exception renders as its message. -/
def Exc.msg : Exc → String
  | .http code detail => toString code ++ ": " ++ detail
  | .lib m => m

/-- The HTTP outcome of a handler: a 200 response carrying a body, or an
`HTTPException` escaping to FastAPI (status code, detail string). -/
inductive Resp (α : Type) where
  | ok : α → Resp α
  | httpError : Nat → String → Resp α
deriving Repr, DecidableEq

/-- A call made to the social API client, recorded so that theorems can
speak about which external operations a request performed. -/
inductive ApiCall where
  | createPost : String → ApiCall
  | getUser : String → ApiCall
  | getUserTweets : String → Int → ApiCall
deriving Repr, DecidableEq

/-- The social API client environment: the outcome tweepy would give to each
operation the handlers use.  `createResult` maps the posted text to the new
post identifier (or an exception message); `userLookup` maps a username to
an account identifier, `none` meaning the lookup response had no data;
`tweetsLookup` maps an account identifier and limit to the list of recent
tweets, `none` meaning the response had no data. -/
structure TwitterEnv where
  createResult : String → Except String String
  userLookup : String → Except String (Option String)
  tweetsLookup : String → Int → Except String (Option (List Tweet))

/-- Modelled from the spec: the datastore client single-row fetch
(`.select(...).eq("id", uid).single().execute()`).  Per the spec, the
single-row fetch returns the row data or raises on failure or ambiguity:
it errors when zero or more than one rows match the id. -/
def select_single (db : List Row) (uid : String) : Except String Row :=
  match db.filter (fun r => r.id = uid) with
  | [r] => .ok r
  | _ => .error "JSON object requested, multiple (or no) rows returned"

/-- Python truthiness of the `data` of a successful single-row fetch: the
response maps every requested column to its value (possibly null), so it is
a nonempty mapping and always truthy. -/
def singleDataTruthy (_ : Row) : Bool := true

/-- The datastore update-by-equality, state part: apply `f` to every row
whose id matches. -/
def dbApply (db : List Row) (uid : String) (f : Row → Row) : List Row :=
  db.map fun r => if r.id = uid then f r else r

/-- The datastore update-by-equality, returned `data`: the list of rows that
were matched and updated (empty when no row matches). -/
def dbReturning (db : List Row) (uid : String) (f : Row → Row) : List Row :=
  (db.filter fun r => r.id = uid).map f

/-- The fixed post URL template with the identifier interpolated,
`https://twitter.com/i/web/status/` followed by the id. -/
def tweetUrl (tid : String) : String :=
  "https://twitter.com/i/web/status/" ++ tid

/-- Body of the `try` block of `get_profile`: fetch the single row; if the
response data were falsy, raise HTTPException 404. -/
def get_profile_try (db : List Row) (uid : String) : Except Exc Row :=
  match select_single db uid with
  | .error m => .error (.lib m)
  | .ok row =>
    if singleDataTruthy row = false then .error (.http 404 "Profile not found")
    else .ok row

/-- GET /api/profile/(user_id).  The blanket `except Exception` turns every
exception escaping the try block, the raised 404 included, into
HTTPException 500 with detail `Internal Server Error`. -/
def get_profile (db : List Row) (uid : String) : Resp Row :=
  match get_profile_try db uid with
  | .ok r => .ok r
  | .error _ => .httpError 500 "Internal Server Error"

/-- `profile.dict(exclude_none=True)` applied as an update: each field
present (non-null) in the partial update overwrites the corresponding
column; absent fields leave the column as it was.  Columns outside the four
updatable ones are never touched. -/
def applyUpdate (p : ProfileUpdate) (r : Row) : Row :=
  { r with
    username := match p.username with | some v => some v | none => r.username
    bio := match p.bio with | some v => some v | none => r.bio
    website := match p.website with | some v => some v | none => r.website
    location := match p.location with | some v => some v | none => r.location }

/-- Body of the `try` block of `update_profile`.  `updErr` is the datastore
client environment for the update call: `some m` means the update raises
with message `m` (and writes nothing), `none` means it succeeds.  Returns
the response data and the new datastore state. -/
def update_profile_try (db : List Row) (updErr : Option String) (uid : String)
    (p : ProfileUpdate) : Except Exc (List Row) × List Row :=
  match updErr with
  | some m => (.error (.lib m), db)
  | none => (.ok (dbReturning db uid (applyUpdate p)), dbApply db uid (applyUpdate p))

/-- PATCH /api/profile/(user_id).  Any exception becomes HTTPException 400
with the exception message as detail; otherwise the updated row data is
returned as is (status 200), with no check that any row matched. -/
def update_profile (db : List Row) (updErr : Option String) (uid : String)
    (p : ProfileUpdate) : Resp (List Row) × List Row :=
  match update_profile_try db updErr uid p with
  | (.ok data, db2) => (.ok data, db2)
  | (.error e, db2) => (.httpError 400 (Exc.msg e), db2)

/-- Body of the `try` block of `create_tweet`: fetch the current post count
(`.get` with default 0 when the column is absent), raise HTTPException 429
at the 500 ceiling, call the social API to post, then write count+1 and the
last-post metadata.  Returns the body outcome, the new datastore state and
the social-API call trace. -/
def create_tweet_try (db : List Row) (tw : TwitterEnv) (updErr : Option String)
    (uid content now : String) :
    Except Exc TweetResult × List Row × List ApiCall :=
  match select_single db uid with
  | .error m => (.error (.lib m), db, [])
  | .ok row =>
    let current_count := row.twitter_post_count.getD 0
    if 500 ≤ current_count then
      (.error (.http 429 "Monthly tweet limit reached"), db, [])
    else
      match tw.createResult content with
      | .error m => (.error (.lib m), db, [.createPost content])
      | .ok tid =>
        match updErr with
        | some m => (.error (.lib m), db, [.createPost content])
        | none =>
          (.ok { success := true, new_count := current_count + 1,
                 tweet_id := tid, tweet_url := tweetUrl tid },
           dbApply db uid (fun r =>
             { r with twitter_post_count := some (current_count + 1),
                      last_tweet_at := some now,
                      last_tweet_id := some tid }),
           [.createPost content])

/-- POST /api/tweet/(user_id).  The blanket `except Exception` turns every
exception escaping the try block, the raised 429 included, into
HTTPException 400 with `str(e)` as detail.  `now` is the current UTC
timestamp string. -/
def create_tweet (db : List Row) (tw : TwitterEnv) (updErr : Option String)
    (uid content now : String) :
    Resp TweetResult × List Row × List ApiCall :=
  match create_tweet_try db tw updErr uid content now with
  | (.ok res, db2, calls) => (.ok res, db2, calls)
  | (.error e, db2, calls) => (.httpError 400 (Exc.msg e), db2, calls)

/-- Map one tweet of the social API response to the output shape, with the
URL built from the fixed template. -/
def mapTweet (t : Tweet) : TweetOut :=
  { id := t.id, text := t.text, created_at := t.created_at,
    likes := t.like_count, retweets := t.retweet_count, url := tweetUrl t.id }

/-- GET /api/tweets/(user_id).  Fetch the twitter username; a falsy data
mapping or a missing/empty username yields an empty tweets list (200).  The
inner try swallows social-API exceptions into a 200 body with an `error`
string; the outer `except Exception` turns everything else, the failing
single-row fetch included, into HTTPException 500 with `str(e)` as
detail. -/
def get_tweets (db : List Row) (tw : TwitterEnv) (uid : String) (limit : Int) :
    Resp TweetsBody × List ApiCall :=
  match select_single db uid with
  | .error m => (.httpError 500 (Exc.msg (.lib m)), [])
  | .ok row =>
    if singleDataTruthy row = false then (.ok { tweets := [] }, [])
    else
      match row.twitter_username with
      | none => (.ok { tweets := [] }, [])
      | some username =>
        if username = "" then (.ok { tweets := [] }, [])
        else
          match tw.userLookup username with
          | .error m => (.ok { tweets := [], error := some m }, [.getUser username])
          | .ok none => (.ok { tweets := [] }, [.getUser username])
          | .ok (some twId) =>
            match tw.tweetsLookup twId limit with
            | .error m =>
              (.ok { tweets := [], error := some m },
               [.getUser username, .getUserTweets twId limit])
            | .ok none =>
              (.ok { tweets := [] }, [.getUser username, .getUserTweets twId limit])
            | .ok (some ts) =>
              if ts = [] then
                (.ok { tweets := [] }, [.getUser username, .getUserTweets twId limit])
              else
                (.ok { tweets := ts.map mapTweet },
                 [.getUser username, .getUserTweets twId limit])

/-
Concrete fixtures used by closed theorems and witnesses.
-/

/-- A profile sitting exactly at the post-count ceiling. -/
def rowAtLimit : Row :=
  { id := "u1", twitter_post_count := some 500 }

/-- A profile one below the ceiling. -/
def rowBelowLimit : Row :=
  { id := "u1", twitter_post_count := some 499 }

/-- A profile whose record has no post-count field. -/
def rowNoCount : Row :=
  { id := "u1" }

/-- A profile with no twitter username column value. -/
def rowNoHandle : Row :=
  { id := "u1", twitter_username := none }

/-- A profile whose twitter username is the empty string. -/
def rowEmptyHandle : Row :=
  { id := "u1", twitter_username := some "" }

/-- A profile with a different id, to populate datastores where the
requested id matches nothing. -/
def rowOther : Row :=
  { id := "u2", username := some "other" }

/-- A social API environment in which every operation raises; theorems about
paths that never reach the social API use it. -/
def twRaises : TwitterEnv :=
  { createResult := fun _ => .error "boom"
    userLookup := fun _ => .error "boom"
    tweetsLookup := fun _ _ => .error "boom" }

/-- A concrete tweet returned by the happy social API environment. -/
def tweetSeven : Tweet :=
  { id := "7", text := "hi", created_at := "2024-01-01",
    like_count := 3, retweet_count := 1 }

/-- A social API environment in which every operation succeeds. -/
def twHappy : TwitterEnv :=
  { createResult := fun _ => .ok "9001"
    userLookup := fun _ => .ok (some "tw42")
    tweetsLookup := fun _ _ => .ok (some [tweetSeven]) }

/-
Theorems, one per claim.
-/

/-- C1: the claim says a create_tweet request on a profile whose post count
is at least 500 fails with RateLimited, HTTP status 429.  Evaluating the
handler at such a profile shows the request fails with status 400 instead:
the HTTPException raised with status 429 is caught by the blanket
`except Exception` clause of the same handler and re-raised as
HTTPException 400 whose detail is the Python rendering of the caught
exception. -/
theorem create_tweet_limit_surfaces_400_not_429 :
    (create_tweet [rowAtLimit] twRaises none "u1" "hello" "t0").1
        = Resp.httpError 400 "429: Monthly tweet limit reached" ∧
    (create_tweet [rowAtLimit] twRaises none "u1" "hello" "t0").1
        ≠ Resp.httpError 429 "Monthly tweet limit reached" := by
  constructor
  · rfl
  · decide

/-- C2: the claim says get_profile fails with NotFound, HTTP status 404,
when zero rows match the id.  Evaluating the handler on datastores where
the id matches nothing shows it fails with status 500 instead: the
single-row fetch raises on zero rows (and even the in-handler 404 raise
would be caught by the blanket `except Exception`), so the handler answers
500 Internal Server Error. -/
theorem get_profile_missing_row_yields_500 :
    get_profile [] "u1" = Resp.httpError 500 "Internal Server Error" ∧
    get_profile [rowOther] "u1" = Resp.httpError 500 "Internal Server Error" ∧
    (∀ d, get_profile [rowOther] "u1" ≠ Resp.httpError 404 d) := by
  refine ⟨rfl, rfl, ?_⟩
  intro d h
  simp [get_profile, get_profile_try, select_single, rowOther] at h

/-- Shape of a successful create_tweet: success is only possible below the
ceiling, with the social post call succeeding and the datastore update not
raising, and then the body and the written datastore state are exactly the
ones built from the fetched count plus one. -/
theorem create_tweet_ok_shape
    (db : List Row) (tw : TwitterEnv) (updErr : Option String)
    (uid content now : String) (row : Row) (res : TweetResult)
    (hsel : select_single db uid = .ok row)
    (hok : (create_tweet db tw updErr uid content now).1 = .ok res) :
    ∃ tid, tw.createResult content = .ok tid ∧ updErr = none ∧
      ¬ (500 ≤ row.twitter_post_count.getD 0) ∧
      res = { success := true, new_count := row.twitter_post_count.getD 0 + 1,
              tweet_id := tid, tweet_url := tweetUrl tid } ∧
      (create_tweet db tw updErr uid content now).2.1
        = dbApply db uid (fun r =>
            { r with twitter_post_count := some (row.twitter_post_count.getD 0 + 1),
                     last_tweet_at := some now,
                     last_tweet_id := some tid }) := by
  by_cases hc : 500 ≤ row.twitter_post_count.getD 0
  · exfalso
    unfold create_tweet create_tweet_try at hok
    rw [hsel] at hok
    simp [hc] at hok
  · cases hcr : tw.createResult content with
    | error m =>
      exfalso
      unfold create_tweet create_tweet_try at hok
      rw [hsel] at hok
      simp [hc, hcr] at hok
    | ok tid =>
      cases updErr with
      | some m =>
        exfalso
        unfold create_tweet create_tweet_try at hok
        rw [hsel] at hok
        simp [hc, hcr] at hok
      | none =>
        have heq : create_tweet db tw none uid content now
            = (.ok { success := true,
                     new_count := row.twitter_post_count.getD 0 + 1,
                     tweet_id := tid, tweet_url := tweetUrl tid },
               dbApply db uid (fun r =>
                 { r with twitter_post_count := some (row.twitter_post_count.getD 0 + 1),
                          last_tweet_at := some now,
                          last_tweet_id := some tid }),
               [.createPost content]) := by
          unfold create_tweet create_tweet_try
          rw [hsel]
          simp [hc, hcr]
        rw [heq] at hok
        simp only [Resp.ok.injEq] at hok
        exact ⟨tid, rfl, rfl, hc, hok.symm, by rw [heq]⟩

/-- C3: for every create_tweet request on a profile whose current post count
is at least 500, the social post-creation API is never invoked: the call
trace of the request is empty. -/
theorem create_tweet_limit_no_external_call
    (db : List Row) (tw : TwitterEnv) (updErr : Option String)
    (uid content now : String) (row : Row)
    (hsel : select_single db uid = .ok row)
    (hcnt : 500 ≤ row.twitter_post_count.getD 0) :
    (create_tweet db tw updErr uid content now).2.2 = [] := by
  unfold create_tweet create_tweet_try
  rw [hsel]
  simp [hcnt]

/-- C3 witness: a concrete profile at count 500 produces an empty social-API
call trace even with a social environment that would answer. -/
theorem create_tweet_limit_no_external_call_witness :
    (create_tweet [rowAtLimit] twHappy none "u1" "hi" "t0").2.2 = [] :=
  create_tweet_limit_no_external_call [rowAtLimit] twHappy none "u1" "hi" "t0"
    rowAtLimit rfl (by decide)

/-- C4: for every successful create_tweet call, the returned new_count and
the post count written to every matching datastore row both equal the
fetched count plus one. -/
theorem create_tweet_new_count_is_fetched_plus_one
    (db : List Row) (tw : TwitterEnv) (updErr : Option String)
    (uid content now : String) (row : Row) (res : TweetResult)
    (hsel : select_single db uid = .ok row)
    (hok : (create_tweet db tw updErr uid content now).1 = .ok res) :
    res.new_count = row.twitter_post_count.getD 0 + 1 ∧
    ∀ r ∈ (create_tweet db tw updErr uid content now).2.1, r.id = uid →
      r.twitter_post_count = some (row.twitter_post_count.getD 0 + 1) := by
  obtain ⟨tid, hcr, hupd, hc, hres, hdb⟩ :=
    create_tweet_ok_shape db tw updErr uid content now row res hsel hok
  constructor
  · rw [hres]
  · intro r hr hid
    rw [hdb] at hr
    simp only [dbApply, List.mem_map] at hr
    obtain ⟨r0, _, hr0⟩ := hr
    by_cases h0 : r0.id = uid
    · rw [← hr0]
      simp [h0]
    · rw [← hr0] at hid
      simp [h0] at hid

/-- C4 witness: from count 499 a successful post returns new_count 500 and
writes count 500 to the matching row. -/
theorem create_tweet_new_count_witness :
    ({ success := true, new_count := 500, tweet_id := "9001",
       tweet_url := tweetUrl "9001" } : TweetResult).new_count
        = rowBelowLimit.twitter_post_count.getD 0 + 1 ∧
    ∀ r ∈ (create_tweet [rowBelowLimit] twHappy none "u1" "hi" "t0").2.1,
      r.id = "u1" →
      r.twitter_post_count = some (rowBelowLimit.twitter_post_count.getD 0 + 1) :=
  create_tweet_new_count_is_fetched_plus_one [rowBelowLimit] twHappy none
    "u1" "hi" "t0" rowBelowLimit _ rfl rfl

/-- C5: for every successful create_tweet call, the returned tweet_url is
the fixed template with the returned tweet_id interpolated. -/
theorem create_tweet_url_uses_template
    (db : List Row) (tw : TwitterEnv) (updErr : Option String)
    (uid content now : String) (res : TweetResult)
    (hok : (create_tweet db tw updErr uid content now).1 = .ok res) :
    res.tweet_url = "https://twitter.com/i/web/status/" ++ res.tweet_id := by
  cases hsel : select_single db uid with
  | error m =>
    exfalso
    unfold create_tweet create_tweet_try at hok
    rw [hsel] at hok
    simp at hok
  | ok row =>
    obtain ⟨tid, _, _, _, hres, _⟩ :=
      create_tweet_ok_shape db tw updErr uid content now row res hsel hok
    rw [hres]
    rfl

/-- C5 witness: the concrete successful call returns the template URL for
tweet id 9001. -/
theorem create_tweet_url_witness :
    ({ success := true, new_count := 500, tweet_id := "9001",
       tweet_url := tweetUrl "9001" } : TweetResult).tweet_url
        = "https://twitter.com/i/web/status/"
            ++ ({ success := true, new_count := 500, tweet_id := "9001",
                  tweet_url := tweetUrl "9001" } : TweetResult).tweet_id :=
  create_tweet_url_uses_template [rowBelowLimit] twHappy none "u1" "hi" "t0" _ rfl

/-- A partial update setting only the username field. -/
def pSet : ProfileUpdate := { username := some "neo" }

/-- A profile with a twitter username set. -/
def rowWithHandle : Row := { id := "u1", twitter_username := some "alice" }

/-- Applying the same partial update twice to a row equals applying it
once. -/
theorem applyUpdate_idem (p : ProfileUpdate) (r : Row) :
    applyUpdate p (applyUpdate p r) = applyUpdate p r := by
  unfold applyUpdate
  cases p.username <;> cases p.bio <;> cases p.website <;> cases p.location <;> simp

/-- An update-by-equality with an id-preserving, idempotent row function is
idempotent on the datastore state. -/
theorem dbApply_idem_of (db : List Row) (uid : String) (f : Row → Row)
    (hid : ∀ r, (f r).id = r.id) (hf : ∀ r, f (f r) = f r) :
    dbApply (dbApply db uid f) uid f = dbApply db uid f := by
  induction db with
  | nil => rfl
  | cons r t ih =>
    unfold dbApply at ih ⊢
    simp only [List.map_cons, List.map_map] at ih ⊢
    by_cases h : r.id = uid
    · simp [h, hid, hf, ih]
    · simp only [if_neg h]
      simp [h, ih]

/-- C6: an update_profile call writes exactly the fields present (non-null)
in the partial update; the absent fields and every column outside the four
updatable ones are left unchanged on every row, and applying the same
partial update twice leaves the datastore in the same state as applying it
once. -/
theorem update_profile_partial_frame_idempotent
    (db : List Row) (uid : String) (p : ProfileUpdate) (r : Row) :
    (applyUpdate p r).id = r.id ∧
    (applyUpdate p r).twitter_username = r.twitter_username ∧
    (applyUpdate p r).twitter_post_count = r.twitter_post_count ∧
    (applyUpdate p r).last_tweet_at = r.last_tweet_at ∧
    (applyUpdate p r).last_tweet_id = r.last_tweet_id ∧
    (p.username = none → (applyUpdate p r).username = r.username) ∧
    (∀ v, p.username = some v → (applyUpdate p r).username = some v) ∧
    (p.bio = none → (applyUpdate p r).bio = r.bio) ∧
    (∀ v, p.bio = some v → (applyUpdate p r).bio = some v) ∧
    (p.website = none → (applyUpdate p r).website = r.website) ∧
    (∀ v, p.website = some v → (applyUpdate p r).website = some v) ∧
    (p.location = none → (applyUpdate p r).location = r.location) ∧
    (∀ v, p.location = some v → (applyUpdate p r).location = some v) ∧
    (update_profile (update_profile db none uid p).2 none uid p).2
      = (update_profile db none uid p).2 := by
  refine ⟨rfl, rfl, rfl, rfl, rfl, ?_, ?_, ?_, ?_, ?_, ?_, ?_, ?_, ?_⟩
  · intro h; simp [applyUpdate, h]
  · intro v h; simp [applyUpdate, h]
  · intro h; simp [applyUpdate, h]
  · intro v h; simp [applyUpdate, h]
  · intro h; simp [applyUpdate, h]
  · intro v h; simp [applyUpdate, h]
  · intro h; simp [applyUpdate, h]
  · intro v h; simp [applyUpdate, h]
  · show dbApply (dbApply db uid (applyUpdate p)) uid (applyUpdate p)
        = dbApply db uid (applyUpdate p)
    exact dbApply_idem_of db uid (applyUpdate p) (fun _ => rfl) (applyUpdate_idem p)

/-- C6 witness: on a concrete row, the update writes the username it sets,
leaves bio unchanged, and running the same patch twice leaves the datastore
where one run left it. -/
theorem update_profile_partial_frame_idempotent_witness :
    (applyUpdate pSet rowOther).username = some "neo" ∧
    (applyUpdate pSet rowOther).bio = rowOther.bio ∧
    (update_profile (update_profile [rowOther] none "u2" pSet).2 none "u2" pSet).2
      = (update_profile [rowOther] none "u2" pSet).2 := by
  obtain ⟨-, -, -, -, -, -, hset, hbio, -, -, -, -, -, hidem⟩ :=
    update_profile_partial_frame_idempotent [rowOther] "u2" pSet rowOther
  exact ⟨hset "neo" rfl, hbio rfl, hidem⟩

/-- C9: when the datastore update raises no exception, update_profile
answers 200 with whatever row data the update returned, the empty list
included when zero rows matched the id; no update_profile outcome is ever a
404. -/
theorem update_profile_never_notfound
    (db : List Row) (uid : String) (p : ProfileUpdate) :
    (update_profile db none uid p).1 = .ok (dbReturning db uid (applyUpdate p)) ∧
    ((db.filter fun r => r.id = uid) = [] →
      (update_profile db none uid p).1 = .ok []) ∧
    (∀ updErr d, (update_profile db updErr uid p).1 ≠ Resp.httpError 404 d) := by
  refine ⟨rfl, ?_, ?_⟩
  · intro h
    show Resp.ok (dbReturning db uid (applyUpdate p)) = Resp.ok []
    rw [dbReturning, h]
    rfl
  · intro updErr d hcontra
    cases updErr with
    | none => simp [update_profile, update_profile_try] at hcontra
    | some m => simp [update_profile, update_profile_try, Exc.msg] at hcontra

/-- C9 witness: updating an id that matches no row answers 200 with an empty
data list. -/
theorem update_profile_never_notfound_witness :
    ([rowOther].filter fun r => r.id = "u1") = ([] : List Row) ∧
    (update_profile [rowOther] none "u1" pSet).1 = .ok ([] : List Row) := by
  obtain ⟨-, h2, -⟩ := update_profile_never_notfound [rowOther] "u1" pSet
  exact ⟨by decide, h2 (by decide)⟩

/-- C7: the claim says a missing profile and an absent or empty twitter
username all yield 200 with an empty tweets list and no social-API call.
The username half is true: with the profile present and its username absent
or empty, the handler answers 200 with tweets empty and an empty call
trace.  The missing-profile half fails on the code: the single-row fetch
raises on zero rows, the outer `except Exception` catches it, and the
handler answers 500 with the fetch error as detail. -/
theorem get_tweets_missing_profile_500_username_absent_200 :
    (get_tweets [] twHappy "u1" 10).1
      = Resp.httpError 500 "JSON object requested, multiple (or no) rows returned" ∧
    get_tweets [rowNoHandle] twHappy "u1" 10 = (Resp.ok { tweets := [] }, []) ∧
    get_tweets [rowEmptyHandle] twHappy "u1" 10 = (Resp.ok { tweets := [] }, []) :=
  ⟨rfl, rfl, rfl⟩

/-- C8: whenever the social account lookup or the posts fetch raises, the
inner try of get_tweets swallows the exception and the handler answers 200
with an empty tweets list and the exception message in the error field. -/
theorem get_tweets_api_error_200_with_error_body
    (db : List Row) (tw : TwitterEnv) (uid : String) (limit : Int)
    (row : Row) (username msg : String)
    (hsel : select_single db uid = .ok row)
    (hname : row.twitter_username = some username)
    (hne : username ≠ "")
    (herr : tw.userLookup username = .error msg ∨
      ∃ twId, tw.userLookup username = .ok (some twId) ∧
        tw.tweetsLookup twId limit = .error msg) :
    (get_tweets db tw uid limit).1 = .ok { tweets := [], error := some msg } := by
  unfold get_tweets
  rw [hsel]
  rcases herr with h | ⟨twId, h1, h2⟩
  · simp [singleDataTruthy, hname, hne, h]
  · simp [singleDataTruthy, hname, hne, h1, h2]

/-- C8 witness: with a profile carrying the username alice and a social API
whose lookup raises with message boom, the response is 200 with tweets empty
and error boom. -/
theorem get_tweets_api_error_witness :
    (get_tweets [rowWithHandle] twRaises "u1" 10).1
      = .ok { tweets := [], error := some "boom" } :=
  get_tweets_api_error_200_with_error_body [rowWithHandle] twRaises "u1" 10
    rowWithHandle "alice" "boom" rfl rfl (by decide) (Or.inl rfl)

/-- C10: a create_tweet call on an existing profile whose record lacks the
post-count field treats the current count as 0: the request proceeds to the
social post call and, when the post and the update succeed, returns
new_count 1. -/
theorem create_tweet_absent_count_treated_as_zero
    (db : List Row) (tw : TwitterEnv) (uid content now : String)
    (row : Row) (tid : String)
    (hsel : select_single db uid = .ok row)
    (hcnt : row.twitter_post_count = none)
    (hcr : tw.createResult content = .ok tid) :
    (create_tweet db tw none uid content now).1
      = .ok { success := true, new_count := 1, tweet_id := tid,
              tweet_url := tweetUrl tid } ∧
    (create_tweet db tw none uid content now).2.2 = [ApiCall.createPost content] := by
  unfold create_tweet create_tweet_try
  rw [hsel]
  simp [hcnt, hcr]

/-- C10 witness: a concrete profile without the post-count column yields a
successful post with new_count 1. -/
theorem create_tweet_absent_count_witness :
    (create_tweet [rowNoCount] twHappy none "u1" "hi" "t0").1
      = .ok { success := true, new_count := 1, tweet_id := "9001",
              tweet_url := tweetUrl "9001" } ∧
    (create_tweet [rowNoCount] twHappy none "u1" "hi" "t0").2.2
      = [ApiCall.createPost "hi"] :=
  create_tweet_absent_count_treated_as_zero [rowNoCount] twHappy "u1" "hi" "t0"
    rowNoCount "9001" rfl rfl rfl

end Gossip
